import Mathlib

/-!
Shallow embedding of the campus event management backend
(jaya270304/event-webknot): the registration admission logic, the
attendance and feedback recorders, and the validation layer, translated
from `src/backend/app.py` and `src/backend/utils/validators.py`.

Modelling conventions:
* Timestamps are plain integers (an abstract linearly ordered clock; the
  Python code only compares datetimes, so only the order matters).  The
  Python constant `timedelta(hours=1)` is rendered as `3600`.
* Entity identifiers (UUIDs in the source) are natural numbers.  Where the
  source parses a UUID string (`uuid.UUID(str(x))`), a field is embedded
  as `Option (Option Nat)`: the outer layer records whether the payload
  field is present (and, where the source tests Python truthiness, whether
  it is non-falsy), the inner layer records whether the string parses.
* Optional string fields are `Option String`; Python truthiness of such a
  field (absent, `None` or `""` are all falsy) is `strTruthy`.
* The relational store is the `DB` structure: association lists of rows
  plus a counter supplying fresh row identifiers.
-/

namespace EventWebknot

/-- Python truthiness of an optional string: absent and `""` are falsy. -/
def strTruthy : Option String → Bool
  | none => false
  | some s => !s.isEmpty

/-- A row of the `events` table (columns used by the backend). -/
structure Event where
  college_id : String
  title : String
  description : String
  event_type : String
  start_datetime : Int
  end_datetime : Int
  location : Option String
  max_capacity : Option Int
  registration_deadline : Option Int
  status : String
  created_by : String
deriving DecidableEq

/-- A row of the `registrations` table. -/
structure Registration where
  registration_id : Nat
  event_id : Nat
  student_id : Nat
  registered_at : Int
  status : String
  cancelled_at : Option Int
  cancellation_reason : Option String
deriving DecidableEq

/-- A row of the `attendance` table (feedback lives on this row). -/
structure Attendance where
  attendance_id : Nat
  registration_id : Nat
  checked_in_at : Int
  check_in_method : String
  feedback_rating : Option Int
  feedback_comment : Option String
  feedback_submitted_at : Option Int
deriving DecidableEq

/-- A row of the `colleges` table (columns used by the handlers). -/
structure College where
  name : String
  code : String
  contact_email : Option String
  phone : Option String
deriving DecidableEq

/-- A row of the `students` table (columns used by the handlers). -/
structure Student where
  college_id : String
  email : String
  name : String
  student_number : String
  phone : Option String
  year_of_study : Option Int
  department : Option String
deriving DecidableEq

/-- The relational store: rows plus a fresh-id counter (the source lets
PostgreSQL mint UUID primary keys; freshness is all the code relies on). -/
structure DB where
  colleges : List (Nat × College)
  students : List (Nat × Student)
  events : List (Nat × Event)
  registrations : List Registration
  attendances : List Attendance
  nextId : Nat
deriving DecidableEq

/-- `SELECT ... FROM events e ... WHERE e.event_id = %s` -/
def lookupEvent (db : DB) (eid : Nat) : Option Event :=
  (db.events.find? (fun p => p.1 == eid)).map (fun p => p.2)

/-- `COUNT(r.registration_id)` over
`LEFT JOIN registrations r ON e.event_id = r.event_id AND r.status = 'registered'`:
the number of registered-status registrations of the event
(`register_for_event`, src/backend/app.py lines 696-703). -/
def regCount (db : DB) (eid : Nat) : Nat :=
  (db.registrations.filter (fun r => r.event_id == eid && r.status == "registered")).length

/-- Registered-status registrations of one (event, student) pair. -/
def pairCount (db : DB) (eid sid : Nat) : Nat :=
  (db.registrations.filter
    (fun r => r.event_id == eid && r.student_id == sid && r.status == "registered")).length

/-- The admission error taxonomy of `register_for_event`
(src/backend/app.py lines 707-737), one constructor per distinct
error return. -/
inductive AdmissionError where
  | notFound
  | eventInactive
  | deadlinePassed
  | capacityExceeded
  | duplicateRegistration
deriving DecidableEq

/-- The HTTP status attached to each admission error in `register_for_event`. -/
def AdmissionError.httpStatus : AdmissionError → Nat
  | .notFound => 404
  | .eventInactive => 400
  | .deadlinePassed => 400
  | .capacityExceeded => 400
  | .duplicateRegistration => 409

/-- The error message attached to each admission error in `register_for_event`. -/
def AdmissionError.text : AdmissionError → String
  | .notFound => "Event not found"
  | .eventInactive => "Event is not active for registration"
  | .deadlinePassed => "Registration deadline has passed"
  | .capacityExceeded => "Event is at full capacity"
  | .duplicateRegistration => "Student is already registered for this event"

/-- Modelled from the spec: the storage layer's uniqueness constraint on
registrations.  The table definition (`schema.sql`, referenced from
`src/database/connection.py`) is not part of `src/`; per the spec the store
rejects an insert exactly when the (event, student) pair already has a
registered-status Registration (spec section 4.1 item 5 and section 8:
a cancelled registration does not block re-registration and a new row is
created instead of reactivating the old one). -/
def violatesRegUnique (db : DB) (eid sid : Nat) : Bool :=
  db.registrations.any
    (fun r => r.event_id == eid && r.student_id == sid && r.status == "registered")

/-- The row inserted by `INSERT INTO registrations (event_id, student_id)`:
status defaults to registered and the timestamp is server-assigned
(column defaults live in the absent `schema.sql`; the spec states
"insert a new Registration with status=registered and a server-assigned
timestamp"). -/
def newRegistration (db : DB) (now : Int) (eid sid : Nat) : Registration :=
  { registration_id := db.nextId, event_id := eid, student_id := sid,
    registered_at := now, status := "registered",
    cancelled_at := none, cancellation_reason := none }

/-- The store after the registration insert. -/
def insertRegistration (db : DB) (now : Int) (eid sid : Nat) : DB :=
  { db with registrations := db.registrations ++ [newRegistration db now eid sid],
            nextId := db.nextId + 1 }

/-- The admission core of `register_for_event` (src/backend/app.py lines
695-738), after payload validation: one read of event state, then the
status, deadline and capacity checks exactly as coded (note the Python
truthiness test `if event_info['max_capacity']`, which skips the capacity
check when the stored capacity is 0), then the insert, which the storage
layer rejects as a duplicate when the uniqueness constraint is violated. -/
def attempt_registration (db : DB) (now : Int) (eid sid : Nat) :
    Except AdmissionError Registration × DB :=
  match lookupEvent db eid with
  | none => (.error .notFound, db)
  | some e =>
    if e.status != "active" then (.error .eventInactive, db)
    else if (match e.registration_deadline with
             | some d => decide (now > d)
             | none => false) then (.error .deadlinePassed, db)
    else if (match e.max_capacity with
             | some c => c != 0 && decide ((regCount db eid : Int) ≥ c)
             | none => false) then (.error .capacityExceeded, db)
    else if violatesRegUnique db eid sid then (.error .duplicateRegistration, db)
    else (.ok (newRegistration db now eid sid), insertRegistration db now eid sid)

/-- Written from the words of the spec (section 4.1): admission
preconditions in the stated order — existence, active status, current time
at most the deadline, registered-count strictly below the capacity, no
duplicate registered-status registration — each failure surfacing its own
error, a success inserting a registered-status row with a server-assigned
timestamp.  Used only to be compared against `attempt_registration`. -/
def attempt_registration_spec (db : DB) (now : Int) (eid sid : Nat) :
    Except AdmissionError Registration × DB :=
  match lookupEvent db eid with
  | none => (.error .notFound, db)
  | some e =>
    if e.status != "active" then (.error .eventInactive, db)
    else if (match e.registration_deadline with
             | some d => !decide (now ≤ d)
             | none => false) then (.error .deadlinePassed, db)
    else if (match e.max_capacity with
             | some c => !decide ((regCount db eid : Int) < c)
             | none => false) then (.error .capacityExceeded, db)
    else if violatesRegUnique db eid sid then (.error .duplicateRegistration, db)
    else (.ok (newRegistration db now eid sid), insertRegistration db now eid sid)

/-- Every stored capacity is positive.  The validation layer admits only
capacities in 1..10000 (`validate_event_data`), and the spec's data model
declares capacity "optional (positive integer)", so this holds of every
reachable store. -/
def capPositive (db : DB) : Bool :=
  db.events.all (fun p => match p.2.max_capacity with
    | some c => decide (0 < c)
    | none => true)

/-- The deadline check of `attempt_registration` passes. -/
def deadlineOk (now : Int) (e : Event) : Bool :=
  match e.registration_deadline with
  | some d => decide (now ≤ d)
  | none => true

/-- The capacity check of `attempt_registration` passes. -/
def capacityOk (db : DB) (eid : Nat) (e : Event) : Bool :=
  match e.max_capacity with
  | some c => c == 0 || decide ((regCount db eid : Int) < c)
  | none => true

/-- `SELECT ... FROM registrations r JOIN ... WHERE r.registration_id = %s
AND r.status = 'registered'` (the joins to events/students only follow
foreign keys, which the store keeps intact). -/
def findActiveRegistration (db : DB) (rid : Nat) : Option Registration :=
  db.registrations.find? (fun r => r.registration_id == rid && r.status == "registered")

/-- `SELECT attendance_id FROM attendance WHERE registration_id = %s` -/
def findAttendance (db : DB) (rid : Nat) : Option Attendance :=
  db.attendances.find? (fun a => a.registration_id == rid)

/-- `SELECT ... FROM attendance a JOIN ... WHERE a.attendance_id = %s` -/
def findAttendanceById (db : DB) (aid : Nat) : Option Attendance :=
  db.attendances.find? (fun a => a.attendance_id == aid)

/-- Attendance rows recorded against one registration. -/
def attendanceCount (db : DB) (rid : Nat) : Nat :=
  (db.attendances.filter (fun a => a.registration_id == rid)).length

/-- The error taxonomy of `mark_attendance` (src/backend/app.py lines
899-909): 404 when the registration is missing or not registered-status,
409 when an attendance row already exists. -/
inductive AttendanceError where
  | notFound
  | alreadyCheckedIn
deriving DecidableEq

/-- The row inserted by `INSERT INTO attendance (registration_id,
check_in_method)`: the check-in timestamp is the server-assigned column
default (the defaults live in the absent `schema.sql`; the spec states
"inserts an Attendance row with server timestamp"). -/
def newAttendance (db : DB) (now : Int) (rid : Nat) (method : String) : Attendance :=
  { attendance_id := db.nextId, registration_id := rid, checked_in_at := now,
    check_in_method := method, feedback_rating := none, feedback_comment := none,
    feedback_submitted_at := none }

/-- The core of `mark_attendance` (src/backend/app.py lines 887-926), after
the payload check: look up the registered-status registration, reject a
second check-in, otherwise insert one attendance row. -/
def insertAttendance (db : DB) (now : Int) (rid : Nat) (method : String) : DB :=
  { db with attendances := db.attendances ++ [newAttendance db now rid method],
            nextId := db.nextId + 1 }

def mark_attendance (db : DB) (now : Int) (rid : Nat) (method : String) :
    Except AttendanceError Attendance × DB :=
  match findActiveRegistration db rid with
  | none => (.error .notFound, db)
  | some _ =>
    match findAttendance db rid with
    | some _ => (.error .alreadyCheckedIn, db)
    | none => (.ok (newAttendance db now rid method), insertAttendance db now rid method)

/-- The HTTP-level error payloads returned by the Flask handlers. -/
inductive ApiErr where
  | badRequest (msg : String)
  | notFound (msg : String)
  | conflict (msg : String)
  | serverError (msg : String)
deriving DecidableEq

/-- The HTTP status code of each handler error. -/
def ApiErr.status : ApiErr → Nat
  | .badRequest _ => 400
  | .notFound _ => 404
  | .conflict _ => 409
  | .serverError _ => 500

/-- The row transformation of the cancellation UPDATE: rows matching the
WHERE clause are stamped cancelled, others are untouched. -/
def cancelRow (now : Int) (rid : Nat) (x : Registration) : Registration :=
  if x.registration_id == rid && x.status == "registered" then
    { x with status := "cancelled", cancelled_at := some now,
             cancellation_reason := some "Cancelled by user" }
  else x

/-- `cancel_registration` (src/backend/app.py lines 740-763):
`UPDATE registrations SET status = 'cancelled', cancelled_at =
CURRENT_TIMESTAMP, cancellation_reason = 'Cancelled by user' WHERE
registration_id = %s AND status = 'registered' RETURNING ...`; a zero-row
update yields the 404 response. -/
def cancelAll (db : DB) (now : Int) (rid : Nat) : DB :=
  { db with registrations := db.registrations.map (cancelRow now rid) }

def cancel_registration (db : DB) (now : Int) (rid : Nat) :
    Except ApiErr Registration × DB :=
  match findActiveRegistration db rid with
  | none => (.error (.notFound "Registration not found or already cancelled"), db)
  | some r => (.ok (cancelRow now rid r), cancelAll db now rid)

/-! ## Validation layer (src/backend/utils/validators.py) -/

/-- The result dictionary `{'valid': bool, 'message': str}` returned by
every validator. -/
structure VResult where
  valid : Bool
  message : String
deriving DecidableEq

/-- Character class `[a-zA-Z0-9._%+-]` of the email regex's local part. -/
def localChar (c : Char) : Bool :=
  c.isAlphanum || c == '.' || c == '_' || c == '%' || c == '+' || c == '-'

/-- Character class `[a-zA-Z0-9.-]` of the email regex's domain part. -/
def domChar (c : Char) : Bool :=
  c.isAlphanum || c == '.' || c == '-'

/-- `[a-zA-Z]{2,}$`: a final label of at least two letters. -/
def tldOk (l : List Char) : Bool :=
  decide (l.length ≥ 2) && l.all Char.isAlpha

/-- `[a-zA-Z0-9.-]+\.[a-zA-Z]{2,}$`: some dot splits the tail into a
non-empty run of domain characters and a valid final label. -/
def domainOk (l : List Char) : Bool :=
  (List.range l.length).any (fun i =>
    decide (1 ≤ i) && (l.take i).all domChar && l.getD i ' ' == '.' && tldOk (l.drop (i + 1)))

/-- `validate_email`: the language of
`^[a-zA-Z0-9._%+-]+@[a-zA-Z0-9.-]+\.[a-zA-Z]{2,}$` over ASCII (neither
character class contains `@`, so the split at `@` is the unique one). -/
def validate_email (s : String) : Bool :=
  let cs := s.toList
  (List.range cs.length).any (fun i =>
    decide (1 ≤ i) && (cs.take i).all localChar && cs.getD i ' ' == '@' && domainOk (cs.drop (i + 1)))

/-- `re.sub(r'[\s\-\(\)]', '', phone)`. -/
def cleanPhone (s : String) : List Char :=
  s.toList.filter (fun c => !(c.isWhitespace || c == '-' || c == '(' || c == ')'))

/-- `[1-9][\d]{0,15}$` after the optional leading `+`. -/
def phoneCore : List Char → Bool
  | [] => false
  | c :: rest => ('1' ≤ c && c ≤ '9') && decide (rest.length ≤ 15) && rest.all Char.isDigit

/-- The phone pattern `^[\+]?[1-9][\d]{0,15}$` applied to the cleaned number. -/
def validPhone (s : String) : Bool :=
  match cleanPhone s with
  | '+' :: rest => phoneCore rest
  | cs => phoneCore cs

/-- `valid_event_types` of `validate_event_data`. -/
def valid_event_types : List String := ["hackathon", "workshop", "tech_talk", "fest"]

/-- Payload of `/api/events`, as consumed by `validate_event_data` and
`create_event`.  Datetime strings carry their `datetime.fromisoformat`
parse result; numeric strings carry their `int(...)` parse result. -/
structure EventData where
  college_id : Option String
  title : Option String
  description : Option String
  event_type : Option String
  start_datetime : Option (Option Int)
  end_datetime : Option (Option Int)
  location : Option String
  max_capacity : Option (Option Int)
  registration_deadline : Option (Option Int)
  created_by : Option String
deriving DecidableEq

/-- Location and description length checks of `validate_event_data`
(lines 75-83). -/
def validate_event_tail (d : EventData) : VResult :=
  if strTruthy d.location && decide ((d.location.getD "").length > 300) then
    ⟨false, "Location must be 300 characters or less"⟩
  else if strTruthy d.description && decide ((d.description.getD "").length > 2000) then
    ⟨false, "Description must be 2000 characters or less"⟩
  else ⟨true, "Valid event data"⟩

/-- Capacity block of `validate_event_data` (lines 64-73), then the tail. -/
def validate_event_capacity_onward (d : EventData) : VResult :=
  match d.max_capacity with
  | some none => ⟨false, "Maximum capacity must be a valid number"⟩
  | some (some c) =>
    if c ≤ 0 then ⟨false, "Maximum capacity must be a positive number"⟩
    else if c > 10000 then ⟨false, "Maximum capacity seems unreasonably high (>10,000)"⟩
    else validate_event_tail d
  | none => validate_event_tail d

/-- `validate_event_data(data, is_update)` (validators.py lines 14-83).
`now` stands for `datetime.now()` in the one-hour-grace check. -/
def validate_event_data (now : Int) (payload : Option EventData)
    (is_update : Bool) : VResult :=
  match payload with
  | none => ⟨false, "No data provided"⟩
  | some d =>
    if !strTruthy d.title then ⟨false, "Missing required field: title"⟩
    else if !strTruthy d.event_type then ⟨false, "Missing required field: event_type"⟩
    else if d.start_datetime.isNone then ⟨false, "Missing required field: start_datetime"⟩
    else if d.end_datetime.isNone then ⟨false, "Missing required field: end_datetime"⟩
    else if !is_update && !strTruthy d.college_id then
      ⟨false, "Missing required field: college_id"⟩
    else if !(valid_event_types.contains (d.event_type.getD "")) then
      ⟨false, "Invalid event type. Must be one of: hackathon, workshop, tech_talk, fest"⟩
    else if decide ((d.title.getD "").length > 200) then
      ⟨false, "Title must be 200 characters or less"⟩
    else
      match d.start_datetime, d.end_datetime with
      | some (some st), some (some en) =>
        if en ≤ st then ⟨false, "End datetime must be after start datetime"⟩
        else if st < now - 3600 then ⟨false, "Event start time cannot be in the past"⟩
        else
          match d.registration_deadline with
          | some none => ⟨false, "Invalid registration deadline format"⟩
          | some (some dl) =>
            if st < dl then ⟨false, "Registration deadline must be before event start time"⟩
            else validate_event_capacity_onward d
          | none => validate_event_capacity_onward d
      | _, _ => ⟨false, "Invalid datetime format. Use ISO format (YYYY-MM-DDTHH:MM:SS)"⟩

/-- Payload of `/api/students`. -/
structure StudentData where
  college_id : Option String
  email : Option String
  name : Option String
  student_number : Option String
  phone : Option String
  year_of_study : Option (Option Int)
  department : Option String
deriving DecidableEq

/-- Phone and department checks of `validate_student_data` (lines 124-134). -/
def validate_student_tail (d : StudentData) : VResult :=
  if strTruthy d.phone && !validPhone (d.phone.getD "") then
    ⟨false, "Invalid phone number format"⟩
  else if strTruthy d.department && decide ((d.department.getD "").length > 100) then
    ⟨false, "Department must be 100 characters or less"⟩
  else ⟨true, "Valid student data"⟩

/-- `validate_student_data` (validators.py lines 85-136). -/
def validate_student_data (payload : Option StudentData) : VResult :=
  match payload with
  | none => ⟨false, "No data provided"⟩
  | some d =>
    if !strTruthy d.college_id then ⟨false, "Missing required field: college_id"⟩
    else if !strTruthy d.email then ⟨false, "Missing required field: email"⟩
    else if !strTruthy d.name then ⟨false, "Missing required field: name"⟩
    else if !strTruthy d.student_number then ⟨false, "Missing required field: student_number"⟩
    else if !validate_email (d.email.getD "") then ⟨false, "Invalid email format"⟩
    else if decide ((d.name.getD "").length > 200) then
      ⟨false, "Name must be 200 characters or less"⟩
    else if decide ((d.name.getD "").length < 2) then
      ⟨false, "Name must be at least 2 characters long"⟩
    else if decide ((d.student_number.getD "").length > 50) then
      ⟨false, "Student number must be 50 characters or less"⟩
    else
      match d.year_of_study with
      | some none => ⟨false, "Year of study must be a valid number"⟩
      | some (some y) =>
        if y < 1 ∨ y > 4 then ⟨false, "Year of study must be between 1 and 4"⟩
        else validate_student_tail d
      | none => validate_student_tail d

/-- Payload of `/api/register`. -/
structure RegistrationData where
  event_id : Option (Option Nat)
  student_id : Option (Option Nat)
deriving DecidableEq

/-- `validate_registration_data` (validators.py lines 138-161). -/
def validate_registration_data (payload : Option RegistrationData) : VResult :=
  match payload with
  | none => ⟨false, "No data provided"⟩
  | some d =>
    if d.event_id.isNone then ⟨false, "Missing required field: event_id"⟩
    else if d.student_id.isNone then ⟨false, "Missing required field: student_id"⟩
    else
      match d.event_id, d.student_id with
      | some (some _), some (some _) => ⟨true, "Valid registration data"⟩
      | _, _ => ⟨false, "Invalid ID format"⟩

/-- Payload of `/api/feedback`.  The presence test of the source is
`data[field] is None`, so the outer `Option` is none exactly when the field
is absent or `None` (a rating of 0 is present). -/
structure FeedbackData where
  attendance_id : Option (Option Nat)
  rating : Option (Option Int)
  comment : Option String
deriving DecidableEq

/-- `inappropriate_words` of `validate_feedback_data`. -/
def inappropriate_words : List String := ["spam", "hate", "abuse"]

/-- Contiguous-substring search on character lists (the semantics of the
Python `in` operator on strings). -/
def substrSearch (pat : List Char) : List Char → Bool
  | [] => pat.isEmpty
  | c :: rest => List.isPrefixOf pat (c :: rest) || substrSearch pat rest

/-- ASCII lowering: the fragment of Python `str.lower()` the comment check
relies on (the flagged words are ASCII). -/
def lowerChar (c : Char) : Char :=
  if c.isUpper then Char.ofNat (c.toNat + 32) else c

/-- ASCII lowering of a whole string (Python `str.lower()` on ASCII). -/
def lowerString (s : String) : String :=
  String.mk (s.toList.map lowerChar)

/-- ASCII raising: the fragment of Python `str.upper()` the college code
handling relies on. -/
def upperChar (c : Char) : Char :=
  if c.isLower then Char.ofNat (c.toNat - 32) else c

/-- ASCII raising of a whole string (Python `str.upper()` on ASCII). -/
def upperString (s : String) : String :=
  String.mk (s.toList.map upperChar)

/-- Python `w in comment.lower()`. -/
def containsWord (comment w : String) : Bool :=
  substrSearch w.toList (comment.toList.map lowerChar)

/-- The lowercased comment contains one of the flagged substrings. -/
def hasInappropriate (comment : String) : Bool :=
  inappropriate_words.any (fun w => containsWord comment w)

/-- `validate_feedback_data` (validators.py lines 163-205). -/
def validate_feedback_data (payload : Option FeedbackData) : VResult :=
  match payload with
  | none => ⟨false, "No data provided"⟩
  | some d =>
    match d.attendance_id, d.rating with
    | none, _ => ⟨false, "Missing required field: attendance_id"⟩
    | some _, none => ⟨false, "Missing required field: rating"⟩
    | some none, some _ => ⟨false, "Invalid attendance ID format"⟩
    | some (some _), some none => ⟨false, "Rating must be a valid number between 1 and 5"⟩
    | some (some _), some (some r) =>
      if r < 1 ∨ r > 5 then ⟨false, "Rating must be between 1 and 5"⟩
      else if strTruthy d.comment && decide ((d.comment.getD "").length > 1000) then
        ⟨false, "Comment must be 1000 characters or less"⟩
      else if strTruthy d.comment && hasInappropriate (d.comment.getD "") then
        ⟨false, "Comment contains inappropriate content"⟩
      else ⟨true, "Valid feedback data"⟩

/-- Payload of `/api/attendance`. -/
structure AttendanceData where
  registration_id : Option (Option Nat)
  check_in_method : Option String
deriving DecidableEq

/-- `validate_attendance_data` (validators.py lines 207-230).  Defined in
the source but never invoked by any handler. -/
def validate_attendance_data (payload : Option AttendanceData) : VResult :=
  match payload with
  | none => ⟨false, "No data provided"⟩
  | some d =>
    match d.registration_id with
    | none => ⟨false, "Missing required field: registration_id"⟩
    | some none => ⟨false, "Invalid registration ID format"⟩
    | some (some _) =>
      if strTruthy d.check_in_method &&
          !(["manual", "qr_code", "rfid"].contains (d.check_in_method.getD "")) then
        ⟨false, "Invalid check-in method. Must be one of: manual, qr_code, rfid"⟩
      else ⟨true, "Valid attendance data"⟩

/-- Payload of `/api/colleges`. -/
structure CollegeData where
  name : Option String
  code : Option String
  address : Option String
  city : Option String
  state : Option String
  contact_email : Option String
  phone : Option String
deriving DecidableEq

/-- Character class `[A-Z0-9]` of the college-code regex. -/
def codeChar (c : Char) : Bool :=
  c.isUpper || c.isDigit

/-- `validate_college_data` (validators.py lines 232-276).  Defined in the
source but never invoked by any handler. -/
def validate_college_data (payload : Option CollegeData) : VResult :=
  match payload with
  | none => ⟨false, "No data provided"⟩
  | some d =>
    if !strTruthy d.name then ⟨false, "Missing required field: name"⟩
    else if !strTruthy d.code then ⟨false, "Missing required field: code"⟩
    else if decide ((d.name.getD "").length > 200) then
      ⟨false, "College name must be 200 characters or less"⟩
    else if decide ((d.name.getD "").length < 2) then
      ⟨false, "College name must be at least 2 characters long"⟩
    else
      let code := upperString (d.code.getD "")
      if decide (code.length > 10) then ⟨false, "College code must be 10 characters or less"⟩
      else if decide (code.length < 2) then
        ⟨false, "College code must be at least 2 characters long"⟩
      else if !(decide (code.length ≥ 1) && code.toList.all codeChar) then
        ⟨false, "College code must contain only letters and numbers"⟩
      else if strTruthy d.contact_email && !validate_email (d.contact_email.getD "") then
        ⟨false, "Invalid contact email format"⟩
      else if strTruthy d.phone && !validPhone (d.phone.getD "") then
        ⟨false, "Invalid phone number format"⟩
      else ⟨true, "Valid college data"⟩

/-! ## Route handlers (src/backend/app.py), from payload to store access -/

/-- `create_college` (src/backend/app.py lines 115-155).  The handler
checks only field presence and the code length inline — it never calls
`validate_college_data`.  The duplicate-code 409 mirrors the
unique-constraint except branch (modelled from the spec: the college short
code is unique; `schema.sql` is not in `src/`). -/
def create_college (db : DB) (payload : Option CollegeData) :
    Except ApiErr College × DB :=
  match payload with
  | none => (.error (.badRequest "Missing required fields: name and code"), db)
  | some d =>
    if !strTruthy d.name || !strTruthy d.code then
      (.error (.badRequest "Missing required fields: name and code"), db)
    else if decide ((d.code.getD "").length > 10) then
      (.error (.badRequest "College code must be 10 characters or less"), db)
    else if db.colleges.any (fun p => p.2.code == upperString (d.code.getD "")) then
      (.error (.conflict "College code already exists"), db)
    else
      (.ok { name := d.name.getD "", code := upperString (d.code.getD ""),
             contact_email := d.contact_email, phone := d.phone },
       { db with
         colleges := db.colleges ++
           [(db.nextId, { name := d.name.getD "", code := upperString (d.code.getD ""),
                          contact_email := d.contact_email, phone := d.phone })],
         nextId := db.nextId + 1 })

/-- `create_event` (src/backend/app.py lines 230-271): validator first,
then the insert.  The stored status is the schema's default `active`
(modelled from the spec: lifecycle starts at active; `schema.sql` is not
in `src/`). -/
def create_event (db : DB) (now : Int) (payload : Option EventData) :
    Except ApiErr (Nat × Event) × DB :=
  let v := validate_event_data now payload false
  if !v.valid then (.error (.badRequest v.message), db)
  else
    match payload with
    | some d =>
      match d.start_datetime, d.end_datetime with
      | some (some st), some (some en) =>
        let e : Event :=
          { college_id := d.college_id.getD "", title := d.title.getD "",
            description := d.description.getD "", event_type := d.event_type.getD "",
            start_datetime := st, end_datetime := en, location := d.location,
            max_capacity := (match d.max_capacity with | some (some c) => some c | _ => none),
            registration_deadline :=
              (match d.registration_deadline with | some (some t) => some t | _ => none),
            status := "active", created_by := d.created_by.getD "System" }
        (.ok (db.nextId, e),
         { db with events := db.events ++ [(db.nextId, e)], nextId := db.nextId + 1 })
      | _, _ => (.error (.serverError "unreachable: datetimes validated"), db)
    | none => (.error (.serverError "unreachable: payload validated"), db)

/-- `create_student` (src/backend/app.py lines 496-536): validator first,
then the insert with the email lowercased.  The duplicate 409s mirror the
unique-constraint except branches (modelled from the spec: unique email,
unique (college, student_number); `schema.sql` is not in `src/`). -/
def create_student (db : DB) (payload : Option StudentData) :
    Except ApiErr Student × DB :=
  let v := validate_student_data payload
  if !v.valid then (.error (.badRequest v.message), db)
  else
    match payload with
    | some d =>
      let s : Student :=
        { college_id := d.college_id.getD "", email := lowerString (d.email.getD ""),
          name := d.name.getD "", student_number := d.student_number.getD "",
          phone := d.phone,
          year_of_study := (match d.year_of_study with | some (some y) => some y | _ => none),
          department := d.department }
      if db.students.any (fun p => p.2.email == s.email) then
        (.error (.conflict "Email address already exists"), db)
      else if db.students.any
          (fun p => p.2.college_id == s.college_id && p.2.student_number == s.student_number) then
        (.error (.conflict "Student number already exists for this college"), db)
      else (.ok s, { db with students := db.students ++ [(db.nextId, s)],
                             nextId := db.nextId + 1 })
    | none => (.error (.serverError "unreachable: payload validated"), db)

/-- The mapping from admission errors to HTTP responses in
`register_for_event` (src/backend/app.py lines 707-737). -/
def admissionToApi : AdmissionError → ApiErr
  | .notFound => .notFound "Event not found"
  | .eventInactive => .badRequest "Event is not active for registration"
  | .deadlinePassed => .badRequest "Registration deadline has passed"
  | .capacityExceeded => .badRequest "Event is at full capacity"
  | .duplicateRegistration => .conflict "Student is already registered for this event"

/-- `register_for_event` (src/backend/app.py lines 681-738):
`validate_registration_data` first, then the admission core. -/
def register_for_event (db : DB) (now : Int) (payload : Option RegistrationData) :
    Except ApiErr Registration × DB :=
  let v := validate_registration_data payload
  if !v.valid then (.error (.badRequest v.message), db)
  else
    match payload with
    | some d =>
      match d.event_id, d.student_id with
      | some (some eid), some (some sid) =>
        match attempt_registration db now eid sid with
        | (.ok r, db2) => (.ok r, db2)
        | (.error a, db2) => (.error (admissionToApi a), db2)
      | _, _ => (.error (.serverError "unreachable: ids validated"), db)
    | none => (.error (.serverError "unreachable: payload validated"), db)

/-- `mark_attendance` as routed (src/backend/app.py lines 875-929).  The
handler checks only that `registration_id` is present — it never calls
`validate_attendance_data` — then defaults the method to `manual` and runs
the core.  A malformed UUID reaches the store and surfaces as the generic
500 branch. -/
def mark_attendance_route (db : DB) (now : Int) (payload : Option AttendanceData) :
    Except ApiErr Attendance × DB :=
  match payload with
  | none => (.error (.badRequest "Missing registration_id"), db)
  | some d =>
    match d.registration_id with
    | none => (.error (.badRequest "Missing registration_id"), db)
    | some none => (.error (.serverError "invalid input syntax for type uuid"), db)
    | some (some rid) =>
      match mark_attendance db now rid (d.check_in_method.getD "manual") with
      | (.ok a, db2) => (.ok a, db2)
      | (.error .notFound, db2) =>
        (.error (.notFound "Registration not found or not active"), db2)
      | (.error .alreadyCheckedIn, db2) =>
        (.error (.conflict "Student is already checked in for this event"), db2)

/-- The attendance row after the feedback UPDATE of `submit_feedback`:
rating, comment and submitted-time are overwritten unconditionally. -/
def feedbackRow (now : Int) (r : Int) (comment : String) (a : Attendance) : Attendance :=
  { a with feedback_rating := some r, feedback_comment := some comment,
           feedback_submitted_at := some now }

/-- The store after the feedback UPDATE: every attendance row with the
given id is overwritten, the rest untouched. -/
def feedbackAll (db : DB) (now : Int) (aid : Nat) (r : Int) (comment : String) : DB :=
  { db with attendances := db.attendances.map (fun x =>
      if x.attendance_id == aid then feedbackRow now r comment x else x) }

/-- `submit_feedback` (src/backend/app.py lines 933-980):
`validate_feedback_data` first, then the attendance lookup (404 when
absent), then `UPDATE attendance SET feedback_rating = %s,
feedback_comment = %s, feedback_submitted_at = CURRENT_TIMESTAMP WHERE
attendance_id = %s` — an unconditional overwrite. -/
def submit_feedback (db : DB) (now : Int) (payload : Option FeedbackData) :
    Except ApiErr Attendance × DB :=
  let v := validate_feedback_data payload
  if !v.valid then (.error (.badRequest v.message), db)
  else
    match payload with
    | some d =>
      match d.attendance_id, d.rating with
      | some (some aid), some (some r) =>
        match findAttendanceById db aid with
        | none => (.error (.notFound "Attendance record not found"), db)
        | some a =>
          (.ok (feedbackRow now r (d.comment.getD "") a),
           feedbackAll db now aid r (d.comment.getD ""))
      | _, _ => (.error (.serverError "unreachable: fields validated"), db)
    | none => (.error (.serverError "unreachable: payload validated"), db)

/-! ## Supporting lemmas -/

theorem decide_lt_eq_not_decide_le (a b : Int) : decide (a < b) = !decide (b ≤ a) := by
  by_cases h : b ≤ a
  · have h2 : ¬ a < b := by omega
    simp [h, h2]
  · have h2 : a < b := by omega
    simp [h, h2]

theorem cap_cond_eq (c : Int) (n : Nat) (hc : 0 < c) :
    (c != 0 && decide ((n : Int) ≥ c)) = !decide ((n : Int) < c) := by
  have h0 : (c != 0) = true := by simp; omega
  by_cases h : (n : Int) < c
  · have h2 : ¬ (n : Int) ≥ c := by omega
    simp [h, h2]
  · have h2 : (n : Int) ≥ c := by omega
    simp [h, h0, h2]

/-- A successful lookup returns an event of the store. -/
theorem lookupEvent_mem {db : DB} {eid : Nat} {e : Event}
    (h : lookupEvent db eid = some e) : ∃ p ∈ db.events, p.2 = e := by
  unfold lookupEvent at h
  cases hF : List.find? (fun p => p.1 == eid) db.events with
  | none => rw [hF] at h; cases h
  | some p =>
    refine ⟨p, List.mem_of_find?_eq_some hF, ?_⟩
    rw [hF] at h
    cases h
    rfl

/-- On a store with positive capacities, a looked-up event's capacity is
positive. -/
theorem capPositive_lookup {db : DB} {eid : Nat} {e : Event} {c : Int}
    (hall : capPositive db = true) (hE : lookupEvent db eid = some e)
    (hc : e.max_capacity = some c) : 0 < c := by
  obtain ⟨p, hp, rfl⟩ := lookupEvent_mem hE
  have := List.all_eq_true.mp hall _ hp
  rw [hc] at this
  simpa using this

/-- `attempt_registration` either fails leaving the store untouched or
succeeds by appending the new row. -/
theorem attempt_registration_cases (db : DB) (now : Int) (eid sid : Nat) :
    (∃ err, attempt_registration db now eid sid = (.error err, db)) ∨
    (attempt_registration db now eid sid =
      (.ok (newRegistration db now eid sid), insertRegistration db now eid sid)) := by
  unfold attempt_registration
  cases lookupEvent db eid with
  | none => exact .inl ⟨_, rfl⟩
  | some e =>
    dsimp only
    split
    · exact .inl ⟨_, rfl⟩
    · split
      · exact .inl ⟨_, rfl⟩
      · split
        · exact .inl ⟨_, rfl⟩
        · split
          · exact .inl ⟨_, rfl⟩
          · exact .inr rfl

/-- The deadline check coded in `register_for_event` rejects nothing when
`deadlineOk` holds. -/
theorem deadline_cond_false {now : Int} {e : Event} (h : deadlineOk now e = true) :
    (match e.registration_deadline with
     | some d => decide (now > d)
     | none => false) = false := by
  unfold deadlineOk at h
  cases hm : e.registration_deadline with
  | none => rfl
  | some d =>
    rw [hm] at h
    simp at h ⊢
    exact h

/-- The capacity check coded in `register_for_event` rejects nothing when
`capacityOk` holds. -/
theorem capacity_cond_false {db : DB} {eid : Nat} {e : Event}
    (h : capacityOk db eid e = true) :
    (match e.max_capacity with
     | some c => c != 0 && decide ((regCount db eid : Int) ≥ c)
     | none => false) = false := by
  unfold capacityOk at h
  cases hm : e.max_capacity with
  | none => rfl
  | some c =>
    rw [hm] at h
    simp at h ⊢
    omega

/-- Inversion of a successful admission: every check passed and the store
grew by exactly the new row. -/
theorem attempt_registration_ok_inv {db : DB} {now : Int} {eid sid : Nat}
    {r : Registration} {db2 : DB}
    (h : attempt_registration db now eid sid = (.ok r, db2)) :
    ∃ e, lookupEvent db eid = some e ∧ e.status = "active" ∧
      (match e.registration_deadline with
       | some d => decide (now > d)
       | none => false) = false ∧
      (match e.max_capacity with
       | some c => c != 0 && decide ((regCount db eid : Int) ≥ c)
       | none => false) = false ∧
      violatesRegUnique db eid sid = false ∧
      r = newRegistration db now eid sid ∧ db2 = insertRegistration db now eid sid := by
  unfold attempt_registration at h
  cases hE : lookupEvent db eid with
  | none =>
    rw [hE] at h
    simp at h
  | some e =>
    rw [hE] at h
    dsimp only at h
    refine ⟨e, rfl, ?_⟩
    split at h
    · simp at h
    · split at h
      · simp at h
      · split at h
        · simp at h
        · split at h
          · simp at h
          · rename_i h1 h2 h3 h4
            injection h with hfst hsnd
            injection hfst with hval
            exact ⟨by simpa using h1, by simpa using h2, by simpa using h3,
              by simpa using h4, hval.symm, hsnd.symm⟩

/-! ## Claims -/

/-- C1: the admission core of `register_for_event` evaluates its
preconditions against a single read of event state in the order: event
existence (`NotFound`), active status (`EventInactive`), registration
deadline (`DeadlinePassed`), registered-count below capacity
(`CapacityExceeded`), and finally the duplicate check (`DuplicateRegistration`);
on stores whose stored capacities are positive (the only ones the
validation layer admits) the core coincides with the spec's decision
procedure `attempt_registration_spec`, so each failure surfaces its own
specific error; and every failure leaves the store unchanged, while a
success inserts and returns a registered-status row with a server-assigned
timestamp. -/
theorem attempt_registration_order (db : DB) (now : Int) (eid sid : Nat) :
    (capPositive db = true →
      attempt_registration db now eid sid = attempt_registration_spec db now eid sid) ∧
    (∀ err, (attempt_registration db now eid sid).1 = .error err →
      (attempt_registration db now eid sid).2 = db) := by
  constructor
  · intro hcap
    unfold attempt_registration attempt_registration_spec
    cases hE : lookupEvent db eid with
    | none => rfl
    | some e =>
      dsimp only
      have hdl : (match e.registration_deadline with
                  | some d => decide (now > d)
                  | none => false)
               = (match e.registration_deadline with
                  | some d => !decide (now ≤ d)
                  | none => false) := by
        cases e.registration_deadline with
        | none => rfl
        | some d => exact decide_lt_eq_not_decide_le d now
      have hcp : (match e.max_capacity with
                  | some c => c != 0 && decide ((regCount db eid : Int) ≥ c)
                  | none => false)
               = (match e.max_capacity with
                  | some c => !decide ((regCount db eid : Int) < c)
                  | none => false) := by
        cases hm : e.max_capacity with
        | none => rfl
        | some c => exact cap_cond_eq c _ (capPositive_lookup hcap hE hm)
      rw [hdl, hcp]
  · intro err h
    rcases attempt_registration_cases db now eid sid with ⟨err2, he⟩ | hok
    · rw [he]
    · rw [hok] at h
      cases h

/-- Decidable equality for handler results, so concrete runs can be checked
by evaluation. -/
instance {α β : Type} [DecidableEq α] [DecidableEq β] : DecidableEq (Except α β) := by
  intro a b
  cases a <;> cases b
  case error.error x y => exact decidable_of_iff (x = y) (by simp)
  case ok.ok x y => exact decidable_of_iff (x = y) (by simp)
  all_goals exact .isFalse (by intro h; cases h)

/-- A concrete active event: capacity 2, registration deadline 50. -/
def sampleEventRow : Event :=
  { college_id := "c1", title := "Tech Talk", description := "",
    event_type := "tech_talk", start_datetime := 100, end_datetime := 200,
    location := none, max_capacity := some 2, registration_deadline := some 50,
    status := "active", created_by := "System" }

/-- A concrete registered-status registration for `sampleEventRow`. -/
def sampleReg : Registration :=
  { registration_id := 1, event_id := 0, student_id := 10, registered_at := 5,
    status := "registered", cancelled_at := none, cancellation_reason := none }

/-- A concrete store holding `sampleEventRow` and `sampleReg`. -/
def sampleDB : DB :=
  { colleges := [], students := [], events := [(0, sampleEventRow)],
    registrations := [sampleReg], attendances := [], nextId := 2 }

/-- Witness for C1: on a concrete store with positive capacities the
admission core and the spec-side procedure agree, and a failing admission
(unknown event) leaves the store unchanged. -/
theorem attempt_registration_order_witness :
    capPositive sampleDB = true ∧
    attempt_registration sampleDB 30 0 11 = attempt_registration_spec sampleDB 30 0 11 ∧
    (attempt_registration sampleDB 30 99 11).1 = .error .notFound ∧
    (attempt_registration sampleDB 30 99 11).2 = sampleDB := by
  refine ⟨by decide, (attempt_registration_order sampleDB 30 0 11).1 (by decide), by rfl,
    (attempt_registration_order sampleDB 30 99 11).2 .notFound (by rfl)⟩

/-- C4: with a registration deadline set on an active event, admission at
current time equal to the deadline does not fail the deadline check, while
admission at any current time strictly after the deadline fails with
`DeadlinePassed` and leaves the store unchanged. -/
theorem deadline_boundary (db : DB) (now : Int) (eid sid : Nat) (e : Event)
    (d : Int) (hE : lookupEvent db eid = some e) (hact : e.status = "active")
    (hd : e.registration_deadline = some d) :
    (now ≤ d → (attempt_registration db now eid sid).1 ≠ .error .deadlinePassed) ∧
    (d < now → attempt_registration db now eid sid = (.error .deadlinePassed, db)) := by
  have hs : (e.status != "active") = false := by simp [hact]
  constructor
  · intro hle
    have h2 : decide (now > d) = false := decide_eq_false (not_lt.mpr hle)
    unfold attempt_registration
    rw [hE]
    dsimp only
    rw [hs, hd]
    dsimp only
    rw [h2]
    simp only [Bool.false_eq_true, if_false]
    split
    · simp
    · split
      · simp
      · simp
  · intro hgt
    have h2 : decide (now > d) = true := decide_eq_true hgt
    unfold attempt_registration
    rw [hE]
    dsimp only
    rw [hs, hd]
    dsimp only
    rw [h2]
    simp

/-- Witness for C4 at the boundary `now = deadline = 50` and just past it. -/
theorem deadline_boundary_witness :
    (attempt_registration sampleDB 50 0 11).1 ≠ .error .deadlinePassed ∧
    attempt_registration sampleDB 51 0 11 = (.error .deadlinePassed, sampleDB) := by
  refine ⟨(deadline_boundary sampleDB 50 0 11 sampleEventRow 50 (by decide) (by decide)
      (by decide)).1 (by decide),
    (deadline_boundary sampleDB 51 0 11 sampleEventRow 50 (by decide) (by decide)
      (by decide)).2 (by decide)⟩

/-- A cancelled event standing at its capacity of 1. -/
def inactiveEventRow : Event :=
  { college_id := "c1", title := "Old Fest", description := "",
    event_type := "fest", start_datetime := 10, end_datetime := 20,
    location := none, max_capacity := some 1, registration_deadline := none,
    status := "cancelled", created_by := "System" }

/-- A store holding `inactiveEventRow` and one registered registration. -/
def dbInactiveFull : DB :=
  { colleges := [], students := [], events := [(0, inactiveEventRow)],
    registrations := [{ registration_id := 1, event_id := 0, student_id := 1,
                        registered_at := 0, status := "registered",
                        cancelled_at := none, cancellation_reason := none }],
    attendances := [], nextId := 2 }

/-- C2 counterexample: an event with finite capacity 1 whose registered-count
already equals 1, on which `attempt_registration` does not fail with
`CapacityExceeded` as the claim demands — the event is cancelled, so the
earlier status check fires first and the call fails with `EventInactive`. -/
theorem capacity_claim_counterexample :
    lookupEvent dbInactiveFull 0 = some inactiveEventRow ∧
    inactiveEventRow.max_capacity = some 1 ∧
    1 ≤ regCount dbInactiveFull 0 ∧
    (attempt_registration dbInactiveFull 5 0 2).1 = .error .eventInactive ∧
    ¬ (attempt_registration dbInactiveFull 5 0 2).1 = .error .capacityExceeded := by
  decide

/-- C2 (amended): for an event with finite positive capacity C, whenever the
status and deadline checks pass and the registered-count has reached C,
admission fails with `CapacityExceeded` and the store is unchanged;
admission succeeds only when the registered-count is strictly below C; and
`attempt_registration` never raises the registered-count of the event
above C, so the count of registered-status registrations never exceeds C. -/
theorem capacity_invariant (db : DB) (now : Int) (eid sid : Nat) (e : Event)
    (C : Int) (hE : lookupEvent db eid = some e) (hc : e.max_capacity = some C)
    (hpos : 0 < C) :
    (e.status = "active" → deadlineOk now e = true → C ≤ (regCount db eid : Int) →
      attempt_registration db now eid sid = (.error .capacityExceeded, db)) ∧
    (∀ r db2, attempt_registration db now eid sid = (.ok r, db2) →
      (regCount db eid : Int) < C ∧ (regCount db2 eid : Int) ≤ C) ∧
    ((regCount db eid : Int) ≤ C →
      (regCount (attempt_registration db now eid sid).2 eid : Int) ≤ C) := by
  have main2 : ∀ r db2, attempt_registration db now eid sid = (.ok r, db2) →
      (regCount db eid : Int) < C ∧ (regCount db2 eid : Int) ≤ C := by
    intro r db2 h
    obtain ⟨e2, hE2, _, _, hcap, _, _, hdb2⟩ := attempt_registration_ok_inv h
    rw [hE] at hE2
    injection hE2 with he2
    subst he2
    rw [hc] at hcap
    have hlt : (regCount db eid : Int) < C := by
      simp at hcap
      exact hcap (by omega)
    refine ⟨hlt, ?_⟩
    subst hdb2
    have hcount : regCount (insertRegistration db now eid sid) eid = regCount db eid + 1 := by
      simp [regCount, insertRegistration, newRegistration, List.filter_append]
    rw [hcount]
    omega
  refine ⟨?_, main2, ?_⟩
  · intro hact hdl hge
    have hs : (e.status != "active") = false := by simp [hact]
    have hcpt : (C != 0 && decide ((regCount db eid : Int) ≥ C)) = true := by
      simp
      omega
    unfold attempt_registration
    rw [hE]
    dsimp only
    rw [hs]
    simp only [Bool.false_eq_true, if_false]
    rw [deadline_cond_false hdl]
    simp only [Bool.false_eq_true, if_false]
    rw [hc]
    dsimp only
    rw [hcpt]
    simp
  · intro hle
    rcases attempt_registration_cases db now eid sid with ⟨err, heq⟩ | hok
    · rw [heq]
      exact hle
    · obtain ⟨hlt, hle2⟩ := main2 _ _ hok
      rw [hok]
      exact hle2

/-- A concrete active, capacity-2, no-deadline event. -/
def fullEventRow : Event :=
  { college_id := "c1", title := "Hack Night", description := "",
    event_type := "hackathon", start_datetime := 100, end_datetime := 200,
    location := none, max_capacity := some 2, registration_deadline := none,
    status := "active", created_by := "System" }

/-- A store where `fullEventRow` stands at its capacity of 2. -/
def dbFull : DB :=
  { colleges := [], students := [], events := [(0, fullEventRow)],
    registrations :=
      [{ registration_id := 1, event_id := 0, student_id := 1, registered_at := 0,
         status := "registered", cancelled_at := none, cancellation_reason := none },
       { registration_id := 2, event_id := 0, student_id := 2, registered_at := 0,
         status := "registered", cancelled_at := none, cancellation_reason := none }],
    attendances := [], nextId := 3 }

/-- Witness for the amended C2: a third admission attempt on a full active
event fails with `CapacityExceeded` and leaves the store unchanged. -/
theorem capacity_invariant_witness :
    attempt_registration dbFull 5 0 99 = (.error .capacityExceeded, dbFull) := by
  exact (capacity_invariant dbFull 5 0 99 fullEventRow 2 (by rfl) (by rfl)
    (by decide)).1 (by rfl) (by rfl) (by decide)

/-- When the uniqueness constraint is not violated, the pair has no
registered-status row at all. -/
theorem pairCount_zero_of_no_dup {db : DB} {eid sid : Nat}
    (h : violatesRegUnique db eid sid = false) : pairCount db eid sid = 0 := by
  unfold violatesRegUnique at h
  unfold pairCount
  rw [List.length_eq_zero, List.filter_eq_nil_iff]
  intro x hx
  have := List.any_eq_false.mp h x hx
  simpa using this

/-- C3: when the existence, status, deadline and capacity checks pass,
admission fails with `DuplicateRegistration` — surfaced as HTTP 409
Conflict — exactly when the insert would violate the storage layer's
uniqueness constraint for the (event, student) pair, i.e. when a
registered-status registration of the pair exists; when no such row exists
(in particular after the pair's registration was cancelled) the insert
succeeds and appends a brand-new row, leaving every existing row — among
them the cancelled one — untouched; and `attempt_registration` preserves
"at most one registered-status registration per (event, student) pair". -/
theorem duplicate_registration_guard (db : DB) (now : Int) (eid sid : Nat) :
    (∀ e, lookupEvent db eid = some e → e.status = "active" →
      deadlineOk now e = true → capacityOk db eid e = true →
      (((attempt_registration db now eid sid).1 = .error .duplicateRegistration) ↔
        violatesRegUnique db eid sid = true) ∧
      (violatesRegUnique db eid sid = false →
        attempt_registration db now eid sid =
          (.ok (newRegistration db now eid sid), insertRegistration db now eid sid))) ∧
    (∀ e2 s2, pairCount db e2 s2 ≤ 1 →
      pairCount (attempt_registration db now eid sid).2 e2 s2 ≤ 1) ∧
    admissionToApi .duplicateRegistration =
      .conflict "Student is already registered for this event" ∧
    (admissionToApi .duplicateRegistration).status = 409 := by
  refine ⟨?_, ?_, rfl, rfl⟩
  · intro e hE hact hdl hcap
    have hs : (e.status != "active") = false := by simp [hact]
    have hred : attempt_registration db now eid sid =
        (if violatesRegUnique db eid sid = true
         then (.error .duplicateRegistration, db)
         else (.ok (newRegistration db now eid sid), insertRegistration db now eid sid)) := by
      unfold attempt_registration
      rw [hE]
      dsimp only
      rw [hs]
      simp only [Bool.false_eq_true, if_false]
      rw [deadline_cond_false hdl]
      simp only [Bool.false_eq_true, if_false]
      rw [capacity_cond_false hcap]
      simp only [Bool.false_eq_true, if_false]
    rw [hred]
    cases hv : violatesRegUnique db eid sid with
    | true => simp [hv]
    | false => simp [hv]
  · intro e2 s2 hle
    rcases attempt_registration_cases db now eid sid with ⟨err, heq⟩ | hok
    · rw [heq]
      exact hle
    · obtain ⟨e3, hE3, _, _, _, hdup, _, hdb2⟩ := attempt_registration_ok_inv hok
      rw [hok]
      dsimp only
      rw [hdb2]
      by_cases hmatch : eid = e2 ∧ sid = s2
      · obtain ⟨rfl, rfl⟩ := hmatch
        have h0 : pairCount db eid sid = 0 := pairCount_zero_of_no_dup hdup
        have hcount : pairCount (insertRegistration db now eid sid) eid sid =
            pairCount db eid sid + 1 := by
          simp [pairCount, insertRegistration, newRegistration, List.filter_append]
        omega
      · have hcount : pairCount (insertRegistration db now eid sid) e2 s2 =
            pairCount db e2 s2 := by
          simp only [pairCount, insertRegistration, List.filter_append, List.length_append]
          have hpred : ((newRegistration db now eid sid).event_id == e2 &&
              (newRegistration db now eid sid).student_id == s2 &&
              (newRegistration db now eid sid).status == "registered") = false := by
            simp [newRegistration]
            intro h1 h2
            exact absurd ⟨h1, h2⟩ hmatch
          simp [List.filter, hpred]
        omega

/-- Witness for C3: on `sampleDB` (student 10 already registered for event
0) admission of the same pair fails as a duplicate, while a fresh student
is admitted by appending a new row. -/
theorem duplicate_registration_guard_witness :
    (attempt_registration sampleDB 30 0 10).1 = .error .duplicateRegistration ∧
    attempt_registration sampleDB 30 0 11 =
      (.ok (newRegistration sampleDB 30 0 11), insertRegistration sampleDB 30 0 11) := by
  constructor
  · exact ((duplicate_registration_guard sampleDB 30 0 10).1 sampleEventRow (by rfl)
      (by rfl) (by rfl) (by rfl)).1.mpr (by decide)
  · exact ((duplicate_registration_guard sampleDB 30 0 11).1 sampleEventRow (by rfl)
      (by rfl) (by rfl) (by rfl)).2 (by decide)

/-- C7: `cancel_registration` fails with the NotFound-class 404 response
"Registration not found or already cancelled", leaving the store
unchanged, whenever no registered-status registration carries the id —
which covers both a nonexistent registration and an already-cancelled one
(re-cancelling is rejected, not silently accepted); on a registered-status
registration it returns the row stamped with status cancelled, the
cancellation time and the reason string "Cancelled by user", updating
exactly the matching rows of the store. -/
theorem cancel_registration_spec (db : DB) (now : Int) (rid : Nat) :
    ((∀ r ∈ db.registrations, ¬(r.registration_id = rid ∧ r.status = "registered")) →
      cancel_registration db now rid =
        (.error (.notFound "Registration not found or already cancelled"), db)) ∧
    (∀ r, findActiveRegistration db rid = some r →
      r.status = "registered" ∧
      cancel_registration db now rid =
        (.ok { r with status := "cancelled", cancelled_at := some now,
                      cancellation_reason := some "Cancelled by user" },
         cancelAll db now rid)) := by
  constructor
  · intro hall
    have hnone : findActiveRegistration db rid = none := by
      unfold findActiveRegistration
      rw [List.find?_eq_none]
      intro x hx
      simp
      intro h1 h2
      exact hall x hx ⟨h1, h2⟩
    unfold cancel_registration
    rw [hnone]
  · intro r hr
    have hpred : (r.registration_id == rid && r.status == "registered") = true := by
      have := List.find?_some hr
      simpa using this
    have hstat : r.status = "registered" := by
      simp at hpred
      exact hpred.2
    refine ⟨hstat, ?_⟩
    unfold cancel_registration
    rw [hr]
    dsimp only
    unfold cancelRow
    rw [hpred]
    simp

/-- A cancelled registration row for the (event 0, student 10) pair. -/
def cancelledReg : Registration :=
  { registration_id := 1, event_id := 0, student_id := 10, registered_at := 5,
    status := "cancelled", cancelled_at := some 7,
    cancellation_reason := some "Cancelled by user" }

/-- `sampleDB` with its registration already cancelled. -/
def dbCancelled : DB :=
  { colleges := [], students := [], events := [(0, sampleEventRow)],
    registrations := [cancelledReg], attendances := [], nextId := 2 }

/-- Witness for C7: re-cancelling an already-cancelled registration and
cancelling a nonexistent one both return the 404, and cancelling the
registered `sampleReg` stamps it cancelled. -/
theorem cancel_registration_spec_witness :
    cancel_registration dbCancelled 9 1 =
      (.error (.notFound "Registration not found or already cancelled"), dbCancelled) ∧
    cancel_registration sampleDB 9 99 =
      (.error (.notFound "Registration not found or already cancelled"), sampleDB) ∧
    cancel_registration sampleDB 9 1 =
      (.ok { sampleReg with status := "cancelled", cancelled_at := some 9,
                            cancellation_reason := some "Cancelled by user" },
       cancelAll sampleDB 9 1) := by
  refine ⟨(cancel_registration_spec dbCancelled 9 1).1 (by decide),
    (cancel_registration_spec sampleDB 9 99).1 (by decide),
    ((cancel_registration_spec sampleDB 9 1).2 sampleReg (by rfl)).2⟩

/-- C5: `mark_attendance` fails `NotFound` (404) when no registered-status
registration carries the id (missing or not in registered status) and
`AlreadyCheckedIn` (409 Conflict) when an attendance row already exists
for the registration, in both cases leaving the store unchanged; otherwise
it appends exactly one attendance row carrying the server timestamp; it
preserves "at most one attendance row per registration" (so the count is
always 0 or 1); and of two successive calls on the same registration whose
first succeeds, the second fails `AlreadyCheckedIn`. -/
theorem mark_attendance_spec (db : DB) (now now2 : Int) (rid : Nat)
    (method method2 : String) :
    (findActiveRegistration db rid = none →
      mark_attendance db now rid method = (.error .notFound, db)) ∧
    (∀ r a, findActiveRegistration db rid = some r → findAttendance db rid = some a →
      mark_attendance db now rid method = (.error .alreadyCheckedIn, db)) ∧
    (∀ r, findActiveRegistration db rid = some r → findAttendance db rid = none →
      mark_attendance db now rid method =
        (.ok (newAttendance db now rid method), insertAttendance db now rid method)) ∧
    (∀ rid2, attendanceCount db rid2 ≤ 1 →
      attendanceCount (mark_attendance db now rid method).2 rid2 ≤ 1) ∧
    (∀ a, (mark_attendance db now rid method).1 = .ok a →
      (mark_attendance (mark_attendance db now rid method).2 now2 rid method2).1 =
        .error .alreadyCheckedIn) := by
  refine ⟨?_, ?_, ?_, ?_, ?_⟩
  · intro h
    unfold mark_attendance
    rw [h]
  · intro r a hr ha
    unfold mark_attendance
    rw [hr, ha]
  · intro r hr ha
    unfold mark_attendance
    rw [hr, ha]
  · intro rid2 hle
    cases hr : findActiveRegistration db rid with
    | none =>
      unfold mark_attendance
      rw [hr]
      exact hle
    | some r =>
      cases ha : findAttendance db rid with
      | some a =>
        unfold mark_attendance
        rw [hr, ha]
        exact hle
      | none =>
        unfold mark_attendance
        rw [hr, ha]
        dsimp only
        by_cases hm : rid = rid2
        · subst hm
          have h0 : attendanceCount db rid = 0 := by
            unfold findAttendance at ha
            unfold attendanceCount
            rw [List.length_eq_zero, List.filter_eq_nil_iff]
            intro x hx
            simpa using List.find?_eq_none.mp ha x hx
          have hcount : attendanceCount (insertAttendance db now rid method) rid =
              attendanceCount db rid + 1 := by
            simp [attendanceCount, insertAttendance, newAttendance, List.filter_append]
          omega
        · have hcount : attendanceCount (insertAttendance db now rid method) rid2 =
              attendanceCount db rid2 := by
            simp only [attendanceCount, insertAttendance, List.filter_append,
              List.length_append]
            have hpred : ((newAttendance db now rid method).registration_id == rid2) = false := by
              simp [newAttendance]
              exact hm
            simp [List.filter, hpred]
          omega
  · intro a hok
    cases hr : findActiveRegistration db rid with
    | none =>
      unfold mark_attendance at hok
      rw [hr] at hok
      simp at hok
    | some r =>
      cases ha : findAttendance db rid with
      | some a2 =>
        unfold mark_attendance at hok
        rw [hr, ha] at hok
        simp at hok
      | none =>
        have hstep : mark_attendance db now rid method =
            (.ok (newAttendance db now rid method), insertAttendance db now rid method) := by
          unfold mark_attendance
          rw [hr, ha]
        rw [hstep]
        dsimp only
        have hr2 : findActiveRegistration (insertAttendance db now rid method) rid =
            some r := by
          unfold findActiveRegistration insertAttendance
          dsimp only
          unfold findActiveRegistration at hr
          exact hr
        have ha2 : findAttendance (insertAttendance db now rid method) rid =
            some (newAttendance db now rid method) := by
          unfold findAttendance insertAttendance
          dsimp only
          rw [List.find?_append]
          unfold findAttendance at ha
          rw [ha]
          simp [newAttendance]
        unfold mark_attendance
        rw [hr2, ha2]

/-- A store with a registered registration and no attendance yet. -/
def dbNoAtt : DB := sampleDB

/-- Witness for C5: checking in registration 1 once succeeds, twice fails
`AlreadyCheckedIn`; 404 for an unknown registration. -/
theorem mark_attendance_spec_witness :
    mark_attendance dbNoAtt 60 99 "manual" = (.error .notFound, dbNoAtt) ∧
    mark_attendance dbNoAtt 60 1 "manual" =
      (.ok (newAttendance dbNoAtt 60 1 "manual"), insertAttendance dbNoAtt 60 1 "manual") ∧
    (mark_attendance (mark_attendance dbNoAtt 60 1 "manual").2 61 1 "qr_code").1 =
      .error .alreadyCheckedIn := by
  refine ⟨(mark_attendance_spec dbNoAtt 60 61 99 "manual" "qr_code").1 (by rfl),
    ((mark_attendance_spec dbNoAtt 60 61 1 "manual" "qr_code").2.2.1 sampleReg (by rfl)
      (by rfl)),
    ((mark_attendance_spec dbNoAtt 60 61 1 "manual" "qr_code").2.2.2.2
      (newAttendance dbNoAtt 60 1 "manual") (by rfl))⟩

/-- The two comment checks of `validate_feedback_data` pass. -/
def commentClean (c : Option String) : Bool :=
  !(strTruthy c && decide ((c.getD "").length > 1000)) &&
  !(strTruthy c && hasInappropriate (c.getD ""))

/-- On a payload with well-formed attendance id and parsed rating whose
comment passes both comment checks, `validate_feedback_data` is decided by
the rating range alone. -/
theorem validate_feedback_eval (d : FeedbackData) (aid : Nat) (r : Int)
    (hA : d.attendance_id = some (some aid)) (hR : d.rating = some (some r))
    (hC : commentClean d.comment = true) :
    validate_feedback_data (some d) =
      (if r < 1 ∨ r > 5 then ⟨false, "Rating must be between 1 and 5"⟩
       else ⟨true, "Valid feedback data"⟩) := by
  unfold commentClean at hC
  simp only [Bool.and_eq_true, Bool.not_eq_true'] at hC
  obtain ⟨hb1, hb2⟩ := hC
  unfold validate_feedback_data
  dsimp only
  rw [hA, hR]
  dsimp only
  by_cases hr5 : r < 1 ∨ r > 5
  · rw [if_pos hr5, if_pos hr5]
  · rw [if_neg hr5, if_neg hr5, hb1]
    simp only [Bool.false_eq_true, if_false]
    rw [hb2]
    simp

/-- C6: for a payload carrying a well-formed attendance id and a parsed
integer rating whose comment passes the comment checks, `submit_feedback`
fails with the `InvalidRating` message for every rating outside the
inclusive range 1..5 (before any store access), fails 404 `NotFound` when
the attendance row is missing, and otherwise succeeds, overwriting the
rating, comment and submitted-time fields of the attendance row
unconditionally (last-write-wins, no history). -/
theorem submit_feedback_spec (db : DB) (now : Int) (d : FeedbackData) (aid : Nat)
    (r : Int) (hA : d.attendance_id = some (some aid)) (hR : d.rating = some (some r))
    (hC : commentClean d.comment = true) :
    ((r < 1 ∨ r > 5) →
      submit_feedback db now (some d) =
        (.error (.badRequest "Rating must be between 1 and 5"), db)) ∧
    (1 ≤ r → r ≤ 5 → findAttendanceById db aid = none →
      submit_feedback db now (some d) =
        (.error (.notFound "Attendance record not found"), db)) ∧
    (1 ≤ r → r ≤ 5 → ∀ a, findAttendanceById db aid = some a →
      submit_feedback db now (some d) =
        (.ok (feedbackRow now r (d.comment.getD "") a),
         feedbackAll db now aid r (d.comment.getD ""))) := by
  have hv := validate_feedback_eval d aid r hA hR hC
  refine ⟨?_, ?_, ?_⟩
  · intro hbad
    unfold submit_feedback
    rw [hv, if_pos hbad]
    simp
  · intro h1 h5 hfind
    have hgood : ¬(r < 1 ∨ r > 5) := by omega
    unfold submit_feedback
    rw [hv, if_neg hgood]
    dsimp only
    rw [hA, hR]
    dsimp only
    rw [hfind]
    simp
  · intro h1 h5 a hfind
    have hgood : ¬(r < 1 ∨ r > 5) := by omega
    unfold submit_feedback
    rw [hv, if_neg hgood]
    dsimp only
    rw [hA, hR]
    dsimp only
    rw [hfind]
    simp

/-- A concrete attendance row awaiting feedback. -/
def sampleAtt : Attendance :=
  { attendance_id := 5, registration_id := 1, checked_in_at := 60,
    check_in_method := "manual", feedback_rating := none, feedback_comment := none,
    feedback_submitted_at := none }

/-- `sampleDB` extended with `sampleAtt`. -/
def dbWithAtt : DB :=
  { colleges := [], students := [], events := [(0, sampleEventRow)],
    registrations := [sampleReg], attendances := [sampleAtt], nextId := 6 }

/-- A feedback payload for attendance 5 with a clean comment. -/
def fbPayload (r : Int) : FeedbackData :=
  { attendance_id := some (some 5), rating := some (some r),
    comment := some "Great event" }

/-- A feedback payload naming a nonexistent attendance. -/
def fbMissing : FeedbackData :=
  { attendance_id := some (some 99), rating := some (some 3),
    comment := some "Great event" }

/-- Witness for C6: ratings 0 and 6 fail `InvalidRating`, ratings 1 and 5
succeed and overwrite, and a missing attendance yields the 404. -/
theorem submit_feedback_spec_witness :
    submit_feedback dbWithAtt 70 (some (fbPayload 0)) =
      (.error (.badRequest "Rating must be between 1 and 5"), dbWithAtt) ∧
    submit_feedback dbWithAtt 70 (some (fbPayload 6)) =
      (.error (.badRequest "Rating must be between 1 and 5"), dbWithAtt) ∧
    submit_feedback dbWithAtt 70 (some (fbPayload 1)) =
      (.ok (feedbackRow 70 1 "Great event" sampleAtt),
       feedbackAll dbWithAtt 70 5 1 "Great event") ∧
    submit_feedback dbWithAtt 70 (some (fbPayload 5)) =
      (.ok (feedbackRow 70 5 "Great event" sampleAtt),
       feedbackAll dbWithAtt 70 5 5 "Great event") ∧
    submit_feedback dbWithAtt 70 (some fbMissing) =
      (.error (.notFound "Attendance record not found"), dbWithAtt) := by
  refine ⟨(submit_feedback_spec dbWithAtt 70 (fbPayload 0) 5 0 (by rfl) (by rfl)
      (by decide)).1 (by omega),
    (submit_feedback_spec dbWithAtt 70 (fbPayload 6) 5 6 (by rfl) (by rfl)
      (by decide)).1 (by omega),
    (submit_feedback_spec dbWithAtt 70 (fbPayload 1) 5 1 (by rfl) (by rfl)
      (by decide)).2.2 (by omega) (by omega) sampleAtt (by rfl),
    (submit_feedback_spec dbWithAtt 70 (fbPayload 5) 5 5 (by rfl) (by rfl)
      (by decide)).2.2 (by omega) (by omega) sampleAtt (by rfl),
    (submit_feedback_spec dbWithAtt 70 fbMissing 99 3 (by rfl) (by rfl)
      (by decide)).2.1 (by omega) (by omega) (by rfl)⟩

/-- The checks following the deadline rule never emit the deadline
message. -/
theorem capacity_onward_message (d : EventData) :
    (validate_event_capacity_onward d).message ≠
      "Registration deadline must be before event start time" := by
  unfold validate_event_capacity_onward validate_event_tail
  repeat' split
  all_goals decide

/-- An event payload whose deadline equals its start time (the boundary). -/
def boundaryEventData : EventData :=
  { college_id := some "c1", title := some "Intro Workshop", description := none,
    event_type := some "workshop", start_datetime := some (some 100),
    end_datetime := some (some 200), location := none, max_capacity := none,
    registration_deadline := some (some 100), created_by := none }

/-- An event payload whose deadline lies strictly after its start time. -/
def lateDeadlineEventData : EventData :=
  { college_id := some "c1", title := some "Intro Workshop", description := none,
    event_type := some "workshop", start_datetime := some (some 100),
    end_datetime := some (some 200), location := none, max_capacity := none,
    registration_deadline := some (some 150), created_by := none }

set_option maxHeartbeats 1000000 in
/-- C9: `validate_event_data` rejects every event payload whose parsed
registration deadline lies strictly after the parsed start time; whenever
the deadline is at most the start time the deadline rule does not fire
(any rejection carries a different message); and the boundary payload with
deadline exactly equal to the start passes validation — so the rule
applied is deadline ≤ start. -/
theorem event_deadline_rule (now : Int) (d : EventData) (st dl : Int)
    (hst : d.start_datetime = some (some st))
    (hdl : d.registration_deadline = some (some dl)) :
    (st < dl → (validate_event_data now (some d) false).valid = false) ∧
    (dl ≤ st → (validate_event_data now (some d) false).message ≠
      "Registration deadline must be before event start time") ∧
    validate_event_data 0 (some boundaryEventData) false =
      ⟨true, "Valid event data"⟩ := by
  refine ⟨?_, ?_, by decide⟩
  · intro h
    unfold validate_event_data
    dsimp only
    rw [hst, hdl]
    repeat' split
    all_goals first
      | rfl
      | (simp_all <;> omega)
  · intro h
    unfold validate_event_data
    dsimp only
    rw [hst, hdl]
    repeat' split
    all_goals try exact capacity_onward_message d
    all_goals try (exfalso; simp_all; omega)
    all_goals decide

/-- Witness for C9: the late-deadline payload is rejected, the boundary
payload is accepted, and the rejection message of a payload with
deadline at most start is never the deadline message. -/
theorem event_deadline_rule_witness :
    (validate_event_data 0 (some lateDeadlineEventData) false).valid = false ∧
    (validate_event_data 0 (some boundaryEventData) false).message ≠
      "Registration deadline must be before event start time" ∧
    validate_event_data 0 (some boundaryEventData) false =
      ⟨true, "Valid event data"⟩ := by
  refine ⟨(event_deadline_rule 0 lateDeadlineEventData 100 150 (by rfl) (by rfl)).1
      (by omega),
    (event_deadline_rule 0 boundaryEventData 100 100 (by rfl) (by rfl)).2.1 (by omega),
    (event_deadline_rule 0 boundaryEventData 100 100 (by rfl) (by rfl)).2.2⟩

/-- A 1001-character comment ending in "spam". -/
def longSpamComment : String := String.mk (List.replicate 997 'a' ++ "spam".toList)

/-- A feedback payload with rating 3 and the over-long spam comment. -/
def fbLongSpam : FeedbackData :=
  { attendance_id := some (some 5), rating := some (some 3),
    comment := some longSpamComment }

set_option maxRecDepth 10000 in
/-- C10 counterexample: a feedback payload whose rating 3 lies within 1..5
and whose lowercased comment contains "spam", yet `validate_feedback_data`
returns the comment-length message, not "Comment contains inappropriate
content" (the length check fires first on a comment longer than 1000
characters). -/
theorem inappropriate_comment_counterexample :
    ((1 : Int) ≤ 3 ∧ (3 : Int) ≤ 5) ∧
    containsWord longSpamComment "spam" = true ∧
    validate_feedback_data (some fbLongSpam) =
      ⟨false, "Comment must be 1000 characters or less"⟩ ∧
    "Comment must be 1000 characters or less" ≠
      "Comment contains inappropriate content" := by
  refine ⟨by decide, by decide, by decide, by decide⟩

/-- C10 (amended): for every feedback payload with a well-formed attendance
id, a rating within 1..5, and a non-empty comment of at most 1000
characters whose lowercasing contains one of "spam", "hate" or "abuse",
`validate_feedback_data` returns invalid with the message "Comment
contains inappropriate content", and `submit_feedback` rejects the request
with that message as a 400 validation error before any store access,
leaving the store unchanged — so a valid rating alone does not get the
feedback stored. -/
theorem inappropriate_comment_rejected (db : DB) (now : Int) (d : FeedbackData)
    (aid : Nat) (r : Int) (c : String)
    (hA : d.attendance_id = some (some aid)) (hR : d.rating = some (some r))
    (h1 : 1 ≤ r) (h5 : r ≤ 5) (hc : d.comment = some c) (hne : c ≠ "")
    (hlen : c.length ≤ 1000) (hbad : hasInappropriate c = true) :
    validate_feedback_data (some d) =
      ⟨false, "Comment contains inappropriate content"⟩ ∧
    submit_feedback db now (some d) =
      (.error (.badRequest "Comment contains inappropriate content"), db) := by
  have htr : strTruthy d.comment = true := by
    rw [hc]
    unfold strTruthy
    dsimp only
    cases hic : c.isEmpty with
    | false => rfl
    | true => exact absurd ((String.isEmpty_iff c).mp hic) hne
  have hlen2 : decide ((d.comment.getD "").length > 1000) = false := by
    rw [hc]
    simp
    omega
  have hbad2 : hasInappropriate (d.comment.getD "") = true := by
    rw [hc]
    exact hbad
  have hval : validate_feedback_data (some d) =
      ⟨false, "Comment contains inappropriate content"⟩ := by
    unfold validate_feedback_data
    dsimp only
    rw [hA, hR]
    dsimp only
    rw [if_neg (by omega : ¬(r < 1 ∨ r > 5))]
    rw [htr, hlen2]
    simp only [Bool.and_false, Bool.false_eq_true, if_false]
    rw [hbad2]
    simp
  refine ⟨hval, ?_⟩
  unfold submit_feedback
  rw [hval]
  simp

/-- A short spam-bearing feedback payload for attendance 5. -/
def fbShortSpam : FeedbackData :=
  { attendance_id := some (some 5), rating := some (some 3),
    comment := some "This is Spam" }

/-- Witness for the amended C10 on a short spam comment. -/
theorem inappropriate_comment_rejected_witness :
    validate_feedback_data (some fbShortSpam) =
      ⟨false, "Comment contains inappropriate content"⟩ ∧
    submit_feedback dbWithAtt 70 (some fbShortSpam) =
      (.error (.badRequest "Comment contains inappropriate content"), dbWithAtt) :=
  inappropriate_comment_rejected dbWithAtt 70 fbShortSpam 5 3 "This is Spam"
    (by rfl) (by rfl) (by decide) (by decide) (by rfl) (by decide) (by decide) (by decide)

/-- The empty store. -/
def emptyDB : DB :=
  { colleges := [], students := [], events := [], registrations := [],
    attendances := [], nextId := 0 }

/-- A college payload the validation layer rejects (name shorter than two
characters) but the handler's inline checks accept. -/
def badCollegePayload : CollegeData :=
  { name := some "X", code := some "OK", address := none, city := none,
    state := none, contact_email := none, phone := none }

/-- An attendance payload the validation layer rejects (check-in method not
among manual/qr_code/rfid) but the handler accepts. -/
def badAttPayload : AttendanceData :=
  { registration_id := some (some 1), check_in_method := some "telepathy" }

/-- C8 counterexample: `create_college` never invokes the validation-layer
function `validate_college_data`; on the payload {name := "X", code :=
"OK"}, which that validator rejects, the handler proceeds past its inline
checks and writes to the store. -/
theorem validation_layer_counterexample :
    (validate_college_data (some badCollegePayload)).valid = false ∧
    (create_college emptyDB (some badCollegePayload)).2 ≠ emptyDB ∧
    (create_college emptyDB (some badCollegePayload)).2.colleges ≠ [] := by
  refine ⟨by decide, by decide, by decide⟩

/-- C8 (amended): for the event, student, registration and feedback
entity kinds the corresponding validation-layer function runs strictly
before any persistence access, and a failure short-circuits the whole
request into a 400 response carrying the validator's message, with the
store untouched; the college and attendance handlers instead use inline
field checks (the validation-layer functions `validate_college_data` and
`validate_attendance_data` exist in the source but are never invoked),
whose failures likewise short-circuit before persistence — but a payload
the skipped validator would reject can reach persistence and mutate the
store. -/
theorem validation_layer_gate (db : DB) (now : Int) :
    (∀ p m, validate_event_data now p false = ⟨false, m⟩ →
      create_event db now p = (.error (.badRequest m), db)) ∧
    (∀ p m, validate_student_data p = ⟨false, m⟩ →
      create_student db p = (.error (.badRequest m), db)) ∧
    (∀ p m, validate_registration_data p = ⟨false, m⟩ →
      register_for_event db now p = (.error (.badRequest m), db)) ∧
    (∀ p m, validate_feedback_data p = ⟨false, m⟩ →
      submit_feedback db now p = (.error (.badRequest m), db)) ∧
    (∀ p d, p = some d → (!strTruthy d.name || !strTruthy d.code) = true →
      create_college db p =
        (.error (.badRequest "Missing required fields: name and code"), db)) ∧
    (∀ p d, p = some d → d.registration_id = none →
      mark_attendance_route db now p =
        (.error (.badRequest "Missing registration_id"), db)) ∧
    ((validate_college_data (some badCollegePayload)).valid = false ∧
      (create_college emptyDB (some badCollegePayload)).2 ≠ emptyDB) ∧
    ((validate_attendance_data (some badAttPayload)).valid = false ∧
      (mark_attendance_route sampleDB 60 (some badAttPayload)).2 ≠ sampleDB) := by
  refine ⟨?_, ?_, ?_, ?_, ?_, ?_, by decide, by decide⟩
  · intro p m h
    unfold create_event
    rw [h]
    simp
  · intro p m h
    unfold create_student
    rw [h]
    simp
  · intro p m h
    unfold register_for_event
    rw [h]
    simp
  · intro p m h
    unfold submit_feedback
    rw [h]
    simp
  · intro p d hp hbc
    subst hp
    unfold create_college
    dsimp only
    rw [hbc]
    simp
  · intro p d hp hm
    subst hp
    unfold mark_attendance_route
    dsimp only
    rw [hm]

/-- A college payload missing its name. -/
def noNameCollegePayload : CollegeData :=
  { name := none, code := some "OK", address := none, city := none,
    state := none, contact_email := none, phone := none }

/-- An attendance payload missing its registration id. -/
def noRegIdAttPayload : AttendanceData :=
  { registration_id := none, check_in_method := none }

/-- Witness for the amended C8: each handler short-circuits on an invalid
payload with the store unchanged. -/
theorem validation_layer_gate_witness :
    create_event emptyDB 0 none = (.error (.badRequest "No data provided"), emptyDB) ∧
    create_student emptyDB none = (.error (.badRequest "No data provided"), emptyDB) ∧
    register_for_event emptyDB 0 none =
      (.error (.badRequest "No data provided"), emptyDB) ∧
    submit_feedback emptyDB 0 none = (.error (.badRequest "No data provided"), emptyDB) ∧
    create_college emptyDB (some noNameCollegePayload) =
      (.error (.badRequest "Missing required fields: name and code"), emptyDB) ∧
    mark_attendance_route emptyDB 0 (some noRegIdAttPayload) =
      (.error (.badRequest "Missing registration_id"), emptyDB) := by
  refine ⟨(validation_layer_gate emptyDB 0).1 none "No data provided" (by rfl),
    (validation_layer_gate emptyDB 0).2.1 none "No data provided" (by rfl),
    (validation_layer_gate emptyDB 0).2.2.1 none "No data provided" (by rfl),
    (validation_layer_gate emptyDB 0).2.2.2.1 none "No data provided" (by rfl),
    (validation_layer_gate emptyDB 0).2.2.2.2.1 _ _ rfl (by decide),
    (validation_layer_gate emptyDB 0).2.2.2.2.2.1 _ _ rfl (by rfl)⟩

end EventWebknot
